import Mathlib

/-!
Shallow embedding of the game-rules engine of "The Good Fight" solo TTRPG
tracker (browser JavaScript), covering the dice module (js/dice.js), the deck
module (js/deck.js), the manual-input relay (js/ui.js), resource clamping
(js/state.js) and the recruitment pipeline (js/app.js: beginGame, drawToPool,
attemptRecruit, addLogEntry, getInfluenceDie).

Modelling conventions:
* JavaScript numbers holding game quantities are embedded as `Int`
  (all arithmetic involved is integer arithmetic).
* `Math.random()` is embedded as an explicit rational parameter `r` with the
  side condition `0 ≤ r < 1`; Fisher-Yates shuffle takes the stream of random
  indices as a function `js : Nat → Nat` reduced mod the live range exactly as
  `Math.floor(Math.random() * (i + 1))` lands in `[0, i]`.
* Async dice requests made by the engine are embedded by a response oracle
  `rolls : Nat → Int` (the value the n-th `await Dice.roll(...)` resolves to);
  each engine operation additionally returns the list of die types it
  requested, so "no roll was requested" is expressible.
* The module-level `gameState` nullable singleton is embedded by passing the
  state explicitly; the `if (!gameState) return` guard is the `Option` wrapper
  `attemptRecruitApp`.
* DOM rendering and `localStorage` persistence are outside the engine and are
  not modelled.
-/

namespace GoodFight

inductive Suit where
  | hearts
  | diamonds
  | clubs
  | spades
  deriving DecidableEq, Repr

inductive DieType where
  | d4
  | d6
  | d8
  | d10
  | d12
  | d20
  | d100
  deriving DecidableEq, Repr

/-- A playing card: `{suit, rank, value}` as built by `Deck.createDeck`. -/
structure Card where
  suit : Suit
  rank : String
  value : Int
  deriving DecidableEq, Repr

/-- An initiate or detained-operative entry: `{card, turnsRemaining}`. -/
structure Personnel where
  card : Card
  turnsRemaining : Int
  deriving DecidableEq, Repr

/-- A turn-log entry: `{turn, text}` as pushed by `addLogEntry`. -/
structure LogEntry where
  turn : Int
  text : String
  deriving DecidableEq, Repr

/-- The engine-owned fields of the `GameState.createInitial()` record that the
recruitment pipeline and the resource setters read or write. -/
structure GameState where
  influence : Int
  heat : Int
  supplies : Int
  recruitDeck : List Card
  recruitPool : List Card
  initiates : List Personnel
  operatives : List Card
  detainedOperatives : List Personnel
  leaderSkillLevel : Int
  currentTurn : Int
  turnLog : List LogEntry
  deriving DecidableEq, Repr

namespace Dice

/-- `DIE_MAX` table from js/dice.js. -/
def dieMax : DieType → Int
  | .d4 => 4
  | .d6 => 6
  | .d8 => 8
  | .d10 => 10
  | .d12 => 12
  | .d20 => 20
  | .d100 => 100

/-- `digitalRoll`: `Math.floor(Math.random() * max) + 1`, with
`Math.random()` embedded as the rational `r`. -/
def digitalRoll (dieType : DieType) (r : ℚ) : Int :=
  Int.floor (r * (dieMax dieType : ℚ)) + 1

/-- `Dice.roll`: if a provider is set, return the provider's value (no
validation); otherwise fall back to `digitalRoll`. -/
def roll (provider : Option (DieType → Int)) (dieType : DieType) (r : ℚ) : Int :=
  match provider with
  | some p => p dieType
  | none => digitalRoll dieType r

end Dice

namespace UI

/-- `UI.diceInput` submit handler (js/ui.js): each click parses the entered
value — `none` embeds `NaN` — and resolves with the first value that passes
`!(isNaN(value) || value < 1 || value > max)`; rejected entries leave the
modal open awaiting the next attempt.  The list is the sequence of submitted
entries; the result is the value the promise resolves with, if any. -/
def diceInput (dieType : DieType) : List (Option Int) → Option Int
  | [] => none
  | none :: rest => diceInput dieType rest
  | some value :: rest =>
      if value < 1 ∨ value > Dice.dieMax dieType then diceInput dieType rest
      else some value

end UI

namespace Deck

def SUITS : List Suit := [.hearts, .diamonds, .clubs, .spades]

def RANKS : List String :=
  ["2", "3", "4", "5", "6", "7", "8", "9", "10", "J", "Q", "K", "A"]

/-- `VALUE_MAP` from js/deck.js. -/
def VALUE_MAP : List (String × Int) :=
  [("2", 2), ("3", 3), ("4", 4), ("5", 5), ("6", 6), ("7", 7),
   ("8", 8), ("9", 9), ("10", 10), ("J", 11), ("Q", 12), ("K", 13), ("A", 15)]

/-- `cardValue(rank)`: `VALUE_MAP[rank]` (`0` embeds the `undefined` of a
rank outside the table; `createDeck` only ever uses ranks of `RANKS`). -/
def cardValue (rank : String) : Int :=
  (VALUE_MAP.lookup rank).getD 0

/-- `createDeck()`: one card per suit/rank pair, suits outer, ranks inner. -/
def createDeck : List Card :=
  SUITS.flatMap fun suit => RANKS.map fun rank => ⟨suit, rank, cardValue rank⟩

/-- In-range swap of two array positions (`[deck[i], deck[j]] = [deck[j],
deck[i]]`; Fisher-Yates only ever swaps live indices). -/
def swapIdx (a : Array Card) (i j : Nat) : Array Card :=
  if h : i < a.size ∧ j < a.size then a.swap ⟨i, h.1⟩ ⟨j, h.2⟩ else a

/-- The Fisher-Yates loop of `shuffle`, from index `i` down to `1`;
`js i % (i + 1)` embeds `Math.floor(Math.random() * (i + 1))`, which lands
in `[0, i]`. -/
def shuffleAux (a : Array Card) (i : Nat) (js : Nat → Nat) : Array Card :=
  match i with
  | 0 => a
  | i + 1 => shuffleAux (swapIdx a (i + 1) (js (i + 1) % (i + 2))) i js

/-- `shuffle(deck)`: in-place Fisher-Yates, randomness stream `js`. -/
def shuffle (deck : List Card) (js : Nat → Nat) : List Card :=
  (shuffleAux deck.toArray (deck.length - 1) js).toList

/-- `Array.prototype.splice(start, count)`: returns the removed elements and
the array left behind. -/
def jsSplice (l : List Card) (start count : Nat) : List Card × List Card :=
  ((l.drop start).take count, l.take start ++ l.drop (start + count))

/-- `digitalDraw(deck, count)`: `actual = Math.min(count, deck.length)`,
`drawn = deck.splice(0, actual)`; returns `(drawn, deck after)`. -/
def digitalDraw (deck : List Card) (count : Nat) : List Card × List Card :=
  jsSplice deck 0 (min count deck.length)

end Deck

namespace GameState

/-- `GameState.createInitial()` restricted to the embedded fields: all
resources zero, all lists empty, turn 1. -/
def createInitial : GameState :=
  { influence := 0
    heat := 0
    supplies := 0
    recruitDeck := []
    recruitPool := []
    initiates := []
    operatives := []
    detainedOperatives := []
    leaderSkillLevel := 0
    currentTurn := 1
    turnLog := [] }

/-- `clamp(value, min, max)` = `Math.max(min, Math.min(max, value))`. -/
def clamp (value lo hi : Int) : Int :=
  max lo (min hi value)

/-- `setInfluence`: clamp to `[0, 500]`. -/
def setInfluence (st : GameState) (value : Int) : GameState :=
  { st with influence := clamp value 0 500 }

/-- `setHeat`: clamp to `[0, 100]`. -/
def setHeat (st : GameState) (value : Int) : GameState :=
  { st with heat := clamp value 0 100 }

/-- `setSupplies`: `Math.max(0, value)`. -/
def setSupplies (st : GameState) (value : Int) : GameState :=
  { st with supplies := max 0 value }

/-- `addInfluence`: delta applied through `setInfluence`. -/
def addInfluence (st : GameState) (delta : Int) : GameState :=
  setInfluence st (st.influence + delta)

/-- `addHeat`: delta applied through `setHeat`. -/
def addHeat (st : GameState) (delta : Int) : GameState :=
  setHeat st (st.heat + delta)

/-- `addSupplies`: delta applied through `setSupplies`. -/
def addSupplies (st : GameState) (delta : Int) : GameState :=
  setSupplies st (st.supplies + delta)

end GameState

namespace App

/-- `suitSymbol(suit)` from js/app.js. -/
def suitSymbol : Suit → String
  | .hearts => "♥"
  | .diamonds => "♦"
  | .clubs => "♣"
  | .spades => "♠"

/-- `getInfluenceDie(influence)`: influence bonus-die tier, `none` below 50. -/
def getInfluenceDie (influence : Int) : Option DieType :=
  if influence ≥ 300 then some .d20
  else if influence ≥ 250 then some .d12
  else if influence ≥ 200 then some .d10
  else if influence ≥ 150 then some .d8
  else if influence ≥ 100 then some .d6
  else if influence ≥ 50 then some .d4
  else none

/-- `addLogEntry(text)`: push `{turn: currentTurn, text}` onto `turnLog`. -/
def addLogEntry (st : GameState) (text : String) : GameState :=
  { st with turnLog := st.turnLog ++ [⟨st.currentTurn, text⟩] }

/-- Name of a die type as it appears in log text (`'d10'`, ...). -/
def dieName : DieType → String
  | .d4 => "d4"
  | .d6 => "d6"
  | .d8 => "d8"
  | .d10 => "d10"
  | .d12 => "d12"
  | .d20 => "d20"
  | .d100 => "d100"

/-- The die types `attemptRecruit` requests once past its guards: the base
`d10`, then the influence bonus die when a tier is reached. -/
def recruitDiceRequested (st : GameState) : List DieType :=
  match getInfluenceDie st.influence with
  | some bonusDie => [.d10, bonusDie]
  | none => [.d10]

/-- The `total` computed by `attemptRecruit`: base d10 roll (oracle index 0),
plus the influence bonus roll (oracle index 1) when a tier is reached, plus
`operativeValue = leaderSkillLevel`. -/
def recruitRollTotal (st : GameState) (rolls : Nat → Int) : Int :=
  match getInfluenceDie st.influence with
  | some _ => rolls 0 + rolls 1 + st.leaderSkillLevel
  | none => rolls 0 + st.leaderSkillLevel

/-- The `rollBreakdown` string `attemptRecruit` accumulates. -/
def rollBreakdown (st : GameState) (rolls : Nat → Int) : String :=
  match getInfluenceDie st.influence with
  | some bonusDie =>
      "d10: " ++ toString (rolls 0) ++ " + " ++ dieName bonusDie ++ ": "
        ++ toString (rolls 1) ++ " + leader(" ++ toString st.leaderSkillLevel ++ ")"
  | none =>
      "d10: " ++ toString (rolls 0)
        ++ " + leader(" ++ toString st.leaderSkillLevel ++ ")"

/-- Success log line of `attemptRecruit`. -/
def recruitSuccessMsg (st : GameState) (card : Card) (rolls : Nat → Int) : String :=
  "Recruit success! " ++ card.rank ++ suitSymbol card.suit ++ " ("
    ++ rollBreakdown st rolls ++ " = " ++ toString (recruitRollTotal st rolls)
    ++ " vs " ++ toString card.value ++ ") → Initiate (2 turns)"

/-- Failure log line of `attemptRecruit`. -/
def recruitFailMsg (st : GameState) (card : Card) (rolls : Nat → Int) : String :=
  "Recruit failed. " ++ card.rank ++ suitSymbol card.suit ++ " ("
    ++ rollBreakdown st rolls ++ " = " ++ toString (recruitRollTotal st rolls)
    ++ " vs " ++ toString card.value ++ ") — stays in pool."

/-- `attemptRecruit(poolIndex)` on a live state (js/app.js).  `rolls` is the
dice-response oracle; the second component is the list of die types the
function requested.  Faithful to the source, including the
`operatives.length === 0 && leaderSkillLevel === 0` guard and
`total += operativeValue` (see the claims on both). -/
def attemptRecruit (st : GameState) (poolIndex : Nat) (rolls : Nat → Int) :
    GameState × List DieType :=
  match st.recruitPool[poolIndex]? with
  | none => (st, [])
  | some card =>
    if st.operatives.length = 0 ∧ st.leaderSkillLevel = 0 then
      (addLogEntry st "No operatives available to attempt recruitment.", [])
    else if recruitRollTotal st rolls ≥ card.value then
      (addLogEntry
        { st with
          recruitPool := (Deck.jsSplice st.recruitPool poolIndex 1).2
          initiates := st.initiates ++ [⟨card, 2⟩] }
        (recruitSuccessMsg st card rolls),
       recruitDiceRequested st)
    else
      (addLogEntry st (recruitFailMsg st card rolls), recruitDiceRequested st)

/-- The `if (!gameState) return;` guard of `attemptRecruit`: with no active
game state the call returns immediately. -/
def attemptRecruitApp (gs : Option GameState) (poolIndex : Nat)
    (rolls : Nat → Int) : Option GameState × List DieType :=
  match gs with
  | none => (none, [])
  | some st =>
      let result := attemptRecruit st poolIndex rolls
      (some result.1, result.2)

/-- Per-card log line of `drawToPool`. -/
def drewMsg (card : Card) : String :=
  "Drew " ++ card.rank ++ suitSymbol card.suit
    ++ " (value " ++ toString card.value ++ ") to recruit pool."

/-- `drawToPool(count)` in digital mode (`Deck.draw` with no provider):
draw from `recruitDeck`, append to `recruitPool`, one log line per card. -/
def drawToPool (st : GameState) (count : Nat) : GameState :=
  let drawn := (Deck.digitalDraw st.recruitDeck count).1
  let rest := (Deck.digitalDraw st.recruitDeck count).2
  drawn.foldl (fun s card => addLogEntry s (drewMsg card))
    { st with recruitDeck := rest, recruitPool := st.recruitPool ++ drawn }

/-- `beginGame()` restricted to the engine fields: fresh initial state with a
created and shuffled 52-card `recruitDeck`, all resources zero, turn 1.
`js` is the shuffle randomness stream. -/
def beginGame (js : Nat → Nat) : GameState :=
  { GameState.createInitial with
    recruitDeck := Deck.shuffle Deck.createDeck js
    influence := 0
    heat := 0
    supplies := 0
    currentTurn := 1 }

/-- Total number of cards across the five personnel locations — the quantity
the card-conservation invariant speaks about. -/
def totalCards (st : GameState) : Nat :=
  st.recruitDeck.length + st.recruitPool.length + st.initiates.length
    + st.operatives.length + st.detainedOperatives.length

/-- States reachable from `beginGame` through the digital-mode mutating
operations `drawToPool` and `attemptRecruit`. -/
inductive Reachable : GameState → Prop where
  | init (js : Nat → Nat) : Reachable (beginGame js)
  | draw (st : GameState) (count : Nat) :
      Reachable st → Reachable (drawToPool st count)
  | recruit (st : GameState) (idx : Nat) (rolls : Nat → Int) :
      Reachable st → Reachable (attemptRecruit st idx rolls).1

end App

/-! Concrete states used by the claim theorems and witnesses. -/

/-- State of the spec's recruit-determinism scenario: card of value 8 in the
pool, one operative of value 10, leader skill 10, influence 0. -/
def stSkill : GameState :=
  { GameState.createInitial with
    recruitPool := [⟨.spades, "8", 8⟩]
    operatives := [⟨.clubs, "10", 10⟩]
    leaderSkillLevel := 10 }

/-- Zero-operative, zero-skill start with one card of value 4 in the pool. -/
def stColdStart : GameState :=
  { GameState.createInitial with
    recruitPool := [⟨.hearts, "4", 4⟩] }

/-- State of the spec's success scenario: pool `[3♣ (value 3)]`, one
operative of value 5, leader skill 5. -/
def stScenario : GameState :=
  { GameState.createInitial with
    recruitPool := [⟨.clubs, "3", 3⟩]
    operatives := [⟨.hearts, "5", 5⟩]
    leaderSkillLevel := 5 }

/-- Failure state from the test suite: pool `[A♦ (value 15)]`, one operative
of value 5, leader skill 5, roll 2. -/
def stFailure : GameState :=
  { GameState.createInitial with
    recruitPool := [⟨.diamonds, "A", 15⟩]
    operatives := [⟨.spades, "5", 5⟩]
    leaderSkillLevel := 5 }

open App

/-! Claim theorems. -/

/-- C1: the claim says the dice total alone decides a recruit attempt and
that with card value 8, leader skill 10 and a base d10 roll of 5 the attempt
fails.  The code instead adds `leaderSkillLevel` to the roll total
(`total += operativeValue`), so at exactly that input the attempt succeeds:
the card moves out of the pool into the initiates, and the computed total is
5 + 10 = 15. -/
theorem C1_skill_added_to_roll :
    (attemptRecruit stSkill 0 (fun _ => 5)).1.initiates.length = 1
  ∧ (attemptRecruit stSkill 0 (fun _ => 5)).1.recruitPool = []
  ∧ recruitRollTotal stSkill (fun _ => 5) = 15
  ∧ ¬((5 : Int) ≥ 8) := by decide

/-- C2: the claim says a zero-operative, zero-skill state must still permit
the Leader to attempt, proceeding to a dice roll.  The code's guard
`operatives.length === 0 && leaderSkillLevel === 0` refuses the attempt:
no die is requested, the pool and initiates are untouched, and the refusal
message is logged. -/
theorem C2_leader_blocked_at_cold_start :
    (attemptRecruit stColdStart 0 (fun _ => 10)).2 = []
  ∧ (attemptRecruit stColdStart 0 (fun _ => 10)).1.recruitPool = stColdStart.recruitPool
  ∧ (attemptRecruit stColdStart 0 (fun _ => 10)).1.initiates = []
  ∧ (attemptRecruit stColdStart 0 (fun _ => 10)).1.turnLog =
      [⟨1, "No operatives available to attempt recruitment."⟩] := by decide

/-- C4: the claim says the player may spend 1 supply to upgrade the base die
from d10 to d12, consumed regardless of outcome.  No such option exists in
the code: `attemptRecruit` never changes `supplies`, and whenever it requests
dice at all the base request is always a d10. -/
theorem C4_no_supply_upgrade (st : GameState) (idx : Nat) (rolls : Nat → Int) :
    (attemptRecruit st idx rolls).1.supplies = st.supplies
  ∧ ((attemptRecruit st idx rolls).2 = []
      ∨ ∃ rest, (attemptRecruit st idx rolls).2 = DieType.d10 :: rest) := by
  cases hget : st.recruitPool[idx]? with
  | none => simp [attemptRecruit, hget]
  | some card =>
    simp only [attemptRecruit, hget]
    split
    · simp [addLogEntry]
    · split <;>
        · refine ⟨rfl, Or.inr ?_⟩
          cases hbonus : getInfluenceDie st.influence <;>
            simp [recruitDiceRequested, hbonus]

/-- C5 counterexample: the claim says every value supplied by a relay or
custom provider is validated by `Dice.roll` against `[1, max]` before being
accepted; but `Dice.roll` returns the provider's value unvalidated: a custom
provider supplying 0 for a d4 makes `roll` return 0, outside `[1, 4]`. -/
theorem C5_roll_returns_provider_value_unvalidated :
    Dice.roll (some fun _ => 0) DieType.d4 0 = 0
  ∧ ¬(1 ≤ Dice.roll (some fun _ => 0) DieType.d4 0) := by decide

/-- C5 amended: validation lives in the relay, not in `Dice.roll` — every
value the UI dice-entry relay accepts lies in `[1, max(dieType)]` (out-of-
range or non-numeric entries are rejected and the prompt stays open), and an
automatic digital roll lies in `[1, max(dieType)]`; `Dice.roll` itself
returns a provider's value unchanged. -/
theorem C5_relay_validates_roll_does_not :
    (∀ (d : DieType) (inputs : List (Option Int)) (v : Int),
        UI.diceInput d inputs = some v → 1 ≤ v ∧ v ≤ Dice.dieMax d)
  ∧ (∀ (d : DieType) (r : ℚ), 0 ≤ r → r < 1 →
        1 ≤ Dice.digitalRoll d r ∧ Dice.digitalRoll d r ≤ Dice.dieMax d)
  ∧ (∀ (p : DieType → Int) (d : DieType) (r : ℚ), Dice.roll (some p) d r = p d) := by
  refine ⟨?_, ?_, fun p d r => rfl⟩
  · intro d inputs
    induction inputs with
    | nil => intro v h; simp [UI.diceInput] at h
    | cons head rest ih =>
      intro v h
      match head with
      | none => exact ih v h
      | some value =>
        rw [UI.diceInput] at h
        split at h
        · exact ih v h
        · rename_i hval
          push_neg at hval
          cases h
          exact ⟨hval.1, hval.2⟩
  · intro d r hr0 hr1
    have hmax : (0 : Int) < Dice.dieMax d := by cases d <;> decide
    have hmaxQ : (0 : ℚ) < (Dice.dieMax d : ℚ) := by exact_mod_cast hmax
    constructor
    · have : (0 : Int) ≤ Int.floor (r * (Dice.dieMax d : ℚ)) :=
        Int.floor_nonneg.mpr (mul_nonneg hr0 hmaxQ.le)
      simp only [Dice.digitalRoll]
      omega
    · have hlt : Int.floor (r * (Dice.dieMax d : ℚ)) < Dice.dieMax d :=
        Int.floor_lt.mpr (by exact_mod_cast mul_lt_of_lt_one_left hmaxQ hr1)
      simp only [Dice.digitalRoll]
      omega

/-- Witness for C5 amended: the relay accepts the entry 4 for a d6, and the
accepted value lies in `[1, 6]`. -/
theorem C5_relay_validates_witness :
    1 ≤ (4 : Int) ∧ (4 : Int) ≤ Dice.dieMax DieType.d6 :=
  C5_relay_validates_roll_does_not.1 DieType.d6 [some 4] 4 (by decide)

/-- C6: `setInfluence` always lands in `[0, 500]`, `setHeat` in `[0, 100]`,
`setSupplies` at or above 0, and the delta operations `addInfluence`,
`addHeat`, `addSupplies` are exactly the corresponding setter applied to the
current value plus the delta. -/
theorem C6_setters_clamp (st : GameState) (x : Int) :
    (0 ≤ (GameState.setInfluence st x).influence
      ∧ (GameState.setInfluence st x).influence ≤ 500)
  ∧ (0 ≤ (GameState.setHeat st x).heat ∧ (GameState.setHeat st x).heat ≤ 100)
  ∧ 0 ≤ (GameState.setSupplies st x).supplies
  ∧ GameState.addInfluence st x = GameState.setInfluence st (st.influence + x)
  ∧ GameState.addHeat st x = GameState.setHeat st (st.heat + x)
  ∧ GameState.addSupplies st x = GameState.setSupplies st (st.supplies + x) := by
  refine ⟨⟨?_, ?_⟩, ⟨?_, ?_⟩, ?_, rfl, rfl, rfl⟩
  · exact le_max_left 0 _
  · exact max_le (by norm_num) (min_le_left _ _)
  · exact le_max_left 0 _
  · exact max_le (by norm_num) (min_le_left _ _)
  · exact le_max_left 0 _

/-- C9: a digital draw never fails — it returns exactly
`min(count, |deck|)` cards, taken from the front of the deck, and the deck
keeps exactly the remainder; in particular drawing from an empty deck
returns the empty list. -/
theorem C9_digitalDraw_graceful (deck : List Card) (count : Nat) :
    (Deck.digitalDraw deck count).1 = deck.take (min count deck.length)
  ∧ (Deck.digitalDraw deck count).1.length = min count deck.length
  ∧ (Deck.digitalDraw deck count).2 = deck.drop (min count deck.length)
  ∧ Deck.digitalDraw [] count = ([], []) := by
  refine ⟨by simp [Deck.digitalDraw, Deck.jsSplice], ?_,
    by simp [Deck.digitalDraw, Deck.jsSplice], by simp [Deck.digitalDraw, Deck.jsSplice]⟩
  simp [Deck.digitalDraw, Deck.jsSplice]

/-- C10: an attempt with no active game state, or with a pool index that
refers to no card, is a complete no-op — no die is requested and the state
(log included) is returned unchanged. -/
theorem C10_invalid_index_noop :
    (∀ (idx : Nat) (rolls : Nat → Int), attemptRecruitApp none idx rolls = (none, []))
  ∧ (∀ (st : GameState) (idx : Nat) (rolls : Nat → Int),
      st.recruitPool[idx]? = none → attemptRecruit st idx rolls = (st, [])) := by
  refine ⟨fun idx rolls => rfl, fun st idx rolls h => ?_⟩
  simp [attemptRecruit, h]

/-- Witness for C10: on the initial state (empty pool) index 0 refers to no
card, and the attempt returns the state unchanged with no dice requested. -/
theorem C10_invalid_index_noop_witness :
    attemptRecruit GameState.createInitial 0 (fun _ => 7) =
      (GameState.createInitial, []) :=
  C10_invalid_index_noop.2 GameState.createInitial 0 (fun _ => 7) (by decide)

/-- C7: on a successful attempt the target card leaves the pool (splice at
the pool index), is appended to the initiates with `turnsRemaining = 2`, and
the outcome is logged. -/
theorem C7_success_moves_card (st : GameState) (idx : Nat) (card : Card)
    (rolls : Nat → Int)
    (hget : st.recruitPool[idx]? = some card)
    (hguard : ¬(st.operatives.length = 0 ∧ st.leaderSkillLevel = 0))
    (hwin : recruitRollTotal st rolls ≥ card.value) :
    (attemptRecruit st idx rolls).1.recruitPool
        = st.recruitPool.take idx ++ st.recruitPool.drop (idx + 1)
  ∧ (attemptRecruit st idx rolls).1.initiates = st.initiates ++ [⟨card, 2⟩]
  ∧ (attemptRecruit st idx rolls).1.turnLog
        = st.turnLog ++ [⟨st.currentTurn, recruitSuccessMsg st card rolls⟩] := by
  have hguard2 : ¬(st.operatives = [] ∧ st.leaderSkillLevel = 0) := by
    simpa [List.length_eq_zero] using hguard
  simp [attemptRecruit, hget, hguard2, hwin, addLogEntry, Deck.jsSplice]

/-- Witness for C7 — the spec's scenario: pool `[3♣]`, one operative of
value 5, dice sequence `[7]`; afterwards the pool is empty, the initiates
hold exactly the recruited card, and its timer is 2. -/
theorem C7_success_moves_card_witness :
    ((attemptRecruit stScenario 0 (fun _ => 7)).1.recruitPool
        = stScenario.recruitPool.take 0 ++ stScenario.recruitPool.drop 1
    ∧ (attemptRecruit stScenario 0 (fun _ => 7)).1.initiates
        = stScenario.initiates ++ [⟨⟨.clubs, "3", 3⟩, 2⟩]
    ∧ (attemptRecruit stScenario 0 (fun _ => 7)).1.turnLog
        = stScenario.turnLog
            ++ [⟨stScenario.currentTurn,
                 recruitSuccessMsg stScenario ⟨.clubs, "3", 3⟩ (fun _ => 7)⟩])
  ∧ (attemptRecruit stScenario 0 (fun _ => 7)).1.recruitPool = []
  ∧ (attemptRecruit stScenario 0 (fun _ => 7)).1.initiates.length = 1
  ∧ ((attemptRecruit stScenario 0 (fun _ => 7)).1.initiates.map
        Personnel.turnsRemaining) = [2] :=
  ⟨C7_success_moves_card stScenario 0 ⟨.clubs, "3", 3⟩ (fun _ => 7)
      (by decide) (by decide) (by decide),
   by decide, by decide, by decide⟩

/-- C8: on a failed attempt (roll total below the card value) the state is
unchanged except for one appended turn-log entry — in particular the pool,
initiates, operatives, detained operatives, influence, heat and supplies all
keep their prior values. -/
theorem C8_failure_frame (st : GameState) (idx : Nat) (card : Card)
    (rolls : Nat → Int)
    (hget : st.recruitPool[idx]? = some card)
    (hguard : ¬(st.operatives.length = 0 ∧ st.leaderSkillLevel = 0))
    (hlose : ¬(recruitRollTotal st rolls ≥ card.value)) :
    (attemptRecruit st idx rolls).1 =
      { st with turnLog := st.turnLog
          ++ [⟨st.currentTurn, recruitFailMsg st card rolls⟩] } := by
  have hguard2 : ¬(st.operatives = [] ∧ st.leaderSkillLevel = 0) := by
    simpa [List.length_eq_zero] using hguard
  simp [attemptRecruit, hget, hguard2, hlose, addLogEntry]

/-- Witness for C8: pool `[A♦ (value 15)]`, leader skill 5, roll 2 — the
total 7 falls short of 15 and only the log grows. -/
theorem C8_failure_frame_witness :
    (attemptRecruit stFailure 0 (fun _ => 2)).1 =
      { stFailure with turnLog := stFailure.turnLog
          ++ [⟨stFailure.currentTurn,
               recruitFailMsg stFailure ⟨.diamonds, "A", 15⟩ (fun _ => 2)⟩] } :=
  C8_failure_frame stFailure 0 ⟨.diamonds, "A", 15⟩ (fun _ => 2)
    (by decide) (by decide) (by decide)

/-! Helper lemmas for the card-conservation invariant. -/

lemma swapIdx_size (a : Array Card) (i j : Nat) :
    (Deck.swapIdx a i j).size = a.size := by
  unfold Deck.swapIdx
  split <;> simp

lemma shuffleAux_size (js : Nat → Nat) (i : Nat) :
    ∀ a : Array Card, (Deck.shuffleAux a i js).size = a.size := by
  induction i with
  | zero => intro a; rfl
  | succ n ih => intro a; rw [Deck.shuffleAux, ih, swapIdx_size]

lemma shuffle_length (deck : List Card) (js : Nat → Nat) :
    (Deck.shuffle deck js).length = deck.length := by
  simp [Deck.shuffle, shuffleAux_size]

lemma createDeck_length : Deck.createDeck.length = 52 := rfl

lemma totalCards_addLogEntry (st : GameState) (t : String) :
    totalCards (addLogEntry st t) = totalCards st := rfl

lemma totalCards_foldl_log (f : Card → String) (cs : List Card) :
    ∀ st : GameState,
      totalCards (cs.foldl (fun s c => addLogEntry s (f c)) st) = totalCards st := by
  induction cs with
  | nil => intro st; rfl
  | cons c rest ih => intro st; rw [List.foldl_cons, ih, totalCards_addLogEntry]

lemma totalCards_drawToPool (st : GameState) (count : Nat) :
    totalCards (drawToPool st count) = totalCards st := by
  unfold drawToPool
  rw [totalCards_foldl_log drewMsg]
  simp [totalCards, Deck.digitalDraw, Deck.jsSplice]
  omega

lemma totalCards_attemptRecruit (st : GameState) (idx : Nat) (rolls : Nat → Int) :
    totalCards (attemptRecruit st idx rolls).1 = totalCards st := by
  cases hget : st.recruitPool[idx]? with
  | none => simp [attemptRecruit, hget]
  | some card =>
    have hidx : idx < st.recruitPool.length := by
      by_contra hc
      push_neg at hc
      rw [List.getElem?_eq_none hc] at hget
      exact Option.noConfusion hget
    simp only [attemptRecruit, hget]
    split
    · rw [totalCards_addLogEntry]
    · split
      · simp only [totalCards_addLogEntry]
        simp [totalCards, Deck.jsSplice]
        omega
      · rw [totalCards_addLogEntry]

/-- C3: card conservation — in every state reachable from `beginGame`
through the digital-mode operations `drawToPool` and `attemptRecruit`, the
recruit deck, recruit pool, initiates, operatives and detained operatives
together hold exactly 52 cards. -/
theorem C3_card_conservation (st : GameState) (h : App.Reachable st) :
    totalCards st = 52 := by
  induction h with
  | init js =>
      simp [totalCards, beginGame, GameState.createInitial, shuffle_length,
        createDeck_length]
  | draw st count _ ih => rw [totalCards_drawToPool]; exact ih
  | recruit st idx rolls _ ih => rw [totalCards_attemptRecruit]; exact ih

/-- Witness for C3: the freshly begun game is reachable and holds 52 cards. -/
theorem C3_card_conservation_witness :
    totalCards (beginGame (fun _ => 0)) = 52 :=
  C3_card_conservation (beginGame (fun _ => 0)) (App.Reachable.init (fun _ => 0))

end GoodFight
